import Mathlib

/-!
Shallow embedding of the `academia` Odoo module's scheduling-consistency and
enrollment-workflow engine (models/sesion.py, models/matricula.py,
models/alumno.py, models/facturacion.py).

Modelling conventions:
* Odoo `Float` fields (decimal hours, money amounts) are modelled as `Rat`.
* Odoo `Date` values are modelled as `Int` day indices; "today" is an
  explicit `today : Int` parameter (the injectable clock of the spec).
* A record id is a `Nat`; required many2one fields are plain `Nat` ids and
  optional ones are `Option Nat`.
* A successful write returns `some`/`Except.ok` with the new state; a
  `ValidationError` is `none`/`Except.error`.  Because the embedding is
  pure, an error result leaves the caller's state untouched, which models
  Odoo's transaction rollback (no partial mutation is visible).
* Odoo runs an `@api.constrains` method on a written record only when one
  of the fields listed in the decorator is among the written (or
  recomputed stored) fields.  This triggering discipline is modelled
  explicitly by `validateSesion`, because several claims hinge on it.
-/

namespace Academia

/-- Session state selection from sesion.py: draft / confirmed / done / cancelled. -/
inductive SesState where
  | draft
  | confirmed
  | done
  | cancelled
deriving DecidableEq, Repr

/-- A session record (`academia.sesion`), restricted to the fields the
scheduling engine reads.  `end_time` is the stored computed field
`_compute_end_time` (= start_time + duration); writes keep it in sync. -/
structure Sesion where
  id : Nat
  profesor_id : Nat
  date : Int
  start_time : Rat
  duration : Rat
  end_time : Rat
  state : SesState
  seats : Int
  alumno_ids : List Nat
deriving DecidableEq, Repr

/-- Overlap test from `_check_profesor_schedule`:
`sesion.start_time < other.end_time and sesion.end_time > other.start_time`. -/
def overlapsB (sesion other : Sesion) : Bool :=
  sesion.start_time < other.end_time && sesion.end_time > other.start_time

/-- The candidate pool searched by `_check_profesor_schedule`: other sessions
with the same teacher, the same date, state different from cancelled.
(The source also skips the check when `profesor_id`/`date` are unset, but both
fields are `required=True`, so a stored record always has them.) -/
def conflictPool (db : List Sesion) (sesion : Sesion) : List Sesion :=
  db.filter fun other =>
    other.id ≠ sesion.id && other.profesor_id = sesion.profesor_id &&
      other.date = sesion.date && other.state ≠ SesState.cancelled

/-- The conflict detector: `_check_profesor_schedule` raises iff some session
in the pool overlaps the written one. -/
def hasConflict (db : List Sesion) (sesion : Sesion) : Bool :=
  (conflictPool db sesion).any fun other => overlapsB sesion other

/-- Constraint `_check_profesor_schedule` passes iff no conflict is found. -/
def check_profesor_schedule (db : List Sesion) (sesion : Sesion) : Bool :=
  !(hasConflict db sesion)

/-- Constraint `_check_seats`: raises when `len(alumno_ids) > seats`. -/
def check_seats (sesion : Sesion) : Bool :=
  decide ((sesion.alumno_ids.length : Int) ≤ sesion.seats)

/-- Constraint `_check_date`: raises when the session is done and dated in
the future. -/
def check_date (today : Int) (sesion : Sesion) : Bool :=
  !(sesion.state = SesState.done && sesion.date > today)

/-- Field tags of `academia.sesion`, used to model which written fields
trigger which `@api.constrains` method. -/
inductive SesField where
  | profesor_id
  | date
  | start_time
  | duration
  | end_time
  | state
  | seats
  | alumno_ids
deriving DecidableEq, Repr

/-- Decorator of `_check_seats`: `@api.constrains('alumno_ids', 'seats')`. -/
def seatsWatched : List SesField := [SesField.alumno_ids, SesField.seats]

/-- Decorator of `_check_date`: `@api.constrains('date')`. -/
def dateWatched : List SesField := [SesField.date]

/-- Decorator of `_check_profesor_schedule`:
`@api.constrains('profesor_id', 'date', 'start_time', 'end_time')`. -/
def scheduleWatched : List SesField :=
  [SesField.profesor_id, SesField.date, SesField.start_time, SesField.end_time]

/-- A constraint method runs iff one of its decorated fields was written. -/
def triggered (watched changed : List SesField) : Bool :=
  watched.any fun f => changed.contains f

/-- Run the session constraints that the written fields trigger; `true`
means the write is accepted. -/
def validateSesion (today : Int) (db : List Sesion) (sesion : Sesion)
    (changed : List SesField) : Bool :=
  (!(triggered seatsWatched changed) || check_seats sesion) &&
  (!(triggered dateWatched changed) || check_date today sesion) &&
  (!(triggered scheduleWatched changed) || check_profesor_schedule db sesion)

/-- Stored compute `_compute_end_time`: end_time = start_time + duration. -/
def recomputeEndTime (sesion : Sesion) : Sesion :=
  { sesion with end_time := sesion.start_time + sesion.duration }

/-- All fields, as written on record creation (every constraint runs). -/
def allSesFields : List SesField :=
  [SesField.profesor_id, SesField.date, SesField.start_time, SesField.duration,
   SesField.end_time, SesField.state, SesField.seats, SesField.alumno_ids]

/-- Create a session: the stored compute fills `end_time`, then every
constraint is checked against the store containing the new record. -/
def createSesion (today : Int) (db : List Sesion) (sesion : Sesion) :
    Option (List Sesion) :=
  let s := recomputeEndTime sesion
  let db' := db ++ [s]
  if validateSesion today db' s allSesFields then some db' else none

/-- Write some fields of the session with the given id: apply the update,
recompute `end_time` when one of its dependencies was written, then run
exactly the constraints whose decorated fields were touched. -/
def writeSesion (today : Int) (db : List Sesion) (i : Nat)
    (upd : Sesion → Sesion) (changed : List SesField) : Option (List Sesion) :=
  let changed' :=
    if changed.contains SesField.start_time || changed.contains SesField.duration
    then SesField.end_time :: changed else changed
  let apply := fun s =>
    if changed.contains SesField.start_time || changed.contains SesField.duration
    then recomputeEndTime (upd s) else upd s
  let db' := db.map fun s => if s.id = i then apply s else s
  match db'.find? (fun s => s.id = i) with
  | none => none
  | some s => if validateSesion today db' s changed' then some db' else none

namespace Sesion

/-- `action_confirm`: `self.write(\x7b'state': 'confirmed'\x7d)`. -/
def action_confirm (today : Int) (db : List Sesion) (i : Nat) : Option (List Sesion) :=
  writeSesion today db i (fun s => { s with state := SesState.confirmed }) [SesField.state]

/-- `action_done`: `self.write(\x7b'state': 'done'\x7d)`. -/
def action_done (today : Int) (db : List Sesion) (i : Nat) : Option (List Sesion) :=
  writeSesion today db i (fun s => { s with state := SesState.done }) [SesField.state]

/-- `action_cancel`: `self.write(\x7b'state': 'cancelled'\x7d)`. -/
def action_cancel (today : Int) (db : List Sesion) (i : Nat) : Option (List Sesion) :=
  writeSesion today db i (fun s => { s with state := SesState.cancelled }) [SesField.state]

/-- `action_draft`: `self.write(\x7b'state': 'draft'\x7d)`. -/
def action_draft (today : Int) (db : List Sesion) (i : Nat) : Option (List Sesion) :=
  writeSesion today db i (fun s => { s with state := SesState.draft }) [SesField.state]

end Sesion

/-- Two sessions violate the teacher-schedule invariant when they are
distinct, share teacher and date, neither is cancelled, and their half-open
time intervals overlap. -/
def pairOverlapViolation (a b : Sesion) : Bool :=
  a.id ≠ b.id && a.profesor_id = b.profesor_id && a.date = b.date &&
    a.state ≠ SesState.cancelled && b.state ≠ SesState.cancelled &&
    a.start_time < b.end_time && a.end_time > b.start_time

/-- The spec's schedule invariant over a whole store: no two non-cancelled
sessions of the same teacher on the same date overlap. -/
def schedInvariant (db : List Sesion) : Bool :=
  db.all fun a => db.all fun b => !(pairOverlapViolation a b)

/-- Matrícula state selection: draft / confirmed / paid / cancelled. -/
inductive MatState where
  | draft
  | confirmed
  | paid
  | cancelled
deriving DecidableEq, Repr

/-- Student lifecycle state from alumno.py. -/
inductive AluState where
  | draft
  | enrolled
  | active
  | suspended
  | completed
deriving DecidableEq, Repr

/-- Invoice state selection from facturacion.py. -/
inductive FacState where
  | draft
  | pending
  | paid
  | overdue
  | cancelled
deriving DecidableEq, Repr

/-- An invoice record (`academia.facturacion`), restricted to the fields
`action_pay` fills and `_compute_facturacion` reads. -/
structure Factura where
  id : Nat
  alumno_id : Nat
  curso_id : Nat
  concept : String
  amount : Rat
  state : FacState
deriving DecidableEq, Repr

/-- A student record (`academia.alumno`): its lifecycle state and the
many2many class roster membership `clase_ids`. -/
structure Alumno where
  id : Nat
  state : AluState
  clase_ids : List Nat
deriving DecidableEq, Repr

/-- A matrícula record (`academia.matricula`), restricted to the fields the
state machine reads and writes.  `importe_total` and `importe_pendiente`
are the stored computed fields. -/
structure Matricula where
  name : String
  state : MatState
  importe_curso : Rat
  descuento : Rat
  importe_matricula : Rat
  importe_total : Rat
  importe_pagado : Rat
  importe_pendiente : Rat
  alumno_id : Nat
  curso_id : Nat
  clase_id : Option Nat
  factura_id : Option Nat
deriving DecidableEq, Repr

/-- Stored compute `_compute_importe_total`:
`descuento_aplicado = importe_curso * (descuento / 100)`;
`importe_total = (importe_curso - descuento_aplicado) + importe_matricula`. -/
def compute_importe_total (importe_curso descuento importe_matricula : Rat) : Rat :=
  let descuento_aplicado := importe_curso * (descuento / 100)
  (importe_curso - descuento_aplicado) + importe_matricula

/-- Stored compute `_compute_importe_pendiente`:
`importe_pendiente = importe_total - importe_pagado`. -/
def compute_importe_pendiente (importe_total importe_pagado : Rat) : Rat :=
  importe_total - importe_pagado

/-- Student aggregate `_compute_facturacion`: the pending balance sums the
amounts of the student's invoices whose state is pending. -/
def saldo_pendiente (facturas : List Factura) (alumno_id : Nat) : Rat :=
  (((facturas.filter fun f => f.alumno_id = alumno_id).filter
      fun f => f.state = FacState.pending).map fun f => f.amount).sum

/-- The slice of the entity store one matrícula workflow action touches:
the matrícula, its student, the invoice store, the course name (read when
building the invoice concept) and the store's next fresh invoice id. -/
structure World where
  matricula : Matricula
  alumno : Alumno
  facturas : List Factura
  curso_name : String
  next_factura_id : Nat
deriving DecidableEq, Repr

namespace Matricula

/-- Error message of `action_confirm`. -/
def confirmErr : String := "Solo se pueden confirmar matrículas en borrador."

/-- Error message of `action_pay`. -/
def payErr : String := "Solo se pueden pagar matrículas confirmadas."

/-- Error message of `action_cancel`. -/
def cancelErr : String :=
  "No se puede cancelar una matrícula ya pagada. Debe crear una nota de crédito."

/-- Error message of `action_draft`. -/
def draftErr : String :=
  "Solo se pueden volver a borrador matrículas confirmadas o canceladas."

/-- `action_confirm`: legal only from draft; if a class is linked, add the
student to that class roster (`[(4, id)]` is an idempotent link), then set
state = confirmed. -/
def action_confirm (w : World) : Except String World :=
  if w.matricula.state = MatState.draft then
    let alumno :=
      match w.matricula.clase_id with
      | some cid =>
          if w.alumno.clase_ids.contains cid then w.alumno
          else { w.alumno with clase_ids := w.alumno.clase_ids ++ [cid] }
      | none => w.alumno
    Except.ok { w with
      matricula := { w.matricula with state := MatState.confirmed },
      alumno := alumno }
  else Except.error confirmErr

/-- `action_pay`: legal only from confirmed; set importe_pagado to the full
total (which recomputes importe_pendiente and re-checks
`_check_importe_pagado`), create a paid invoice for the student, link it,
promote a draft student to enrolled, set state = paid. -/
def action_pay (w : World) : Except String World :=
  if w.matricula.state = MatState.confirmed then
    let m := { w.matricula with
      importe_pagado := w.matricula.importe_total,
      importe_pendiente :=
        compute_importe_pendiente w.matricula.importe_total w.matricula.importe_total }
    if m.importe_pagado > m.importe_total then
      Except.error "El importe pagado no puede superar el importe total."
    else
      let factura : Factura := {
        id := w.next_factura_id,
        alumno_id := m.alumno_id,
        curso_id := m.curso_id,
        concept := "Matrícula " ++ m.name ++ " - " ++ w.curso_name,
        amount := m.importe_total,
        state := FacState.paid }
      let alumno :=
        if w.alumno.state = AluState.draft then
          { w.alumno with state := AluState.enrolled }
        else w.alumno
      Except.ok { w with
        matricula := { m with
          factura_id := some factura.id,
          state := MatState.paid },
        alumno := alumno,
        facturas := w.facturas ++ [factura],
        next_factura_id := w.next_factura_id + 1 }
  else Except.error payErr

/-- `action_cancel`: rejected from paid, otherwise set state = cancelled. -/
def action_cancel (w : World) : Except String World :=
  if w.matricula.state = MatState.paid then Except.error cancelErr
  else Except.ok { w with matricula := { w.matricula with state := MatState.cancelled } }

/-- `action_draft`: legal only from confirmed or cancelled; set state = draft. -/
def action_draft (w : World) : Except String World :=
  if w.matricula.state = MatState.confirmed ∨ w.matricula.state = MatState.cancelled then
    Except.ok { w with matricula := { w.matricula with state := MatState.draft } }
  else Except.error draftErr

end Matricula

/-- Outputs of the session seat aggregate `_compute_seats`. -/
structure SeatsStats where
  total_asistentes : Nat
  seats_reserved : Nat
  seats_available : Int
  occupancy_rate : Rat
  is_full : Bool
deriving DecidableEq, Repr

/-- Session aggregate `_compute_seats`: total functions of seats and the
attendee set; the division is guarded by `seats > 0`. -/
def compute_seats (seats : Int) (alumno_ids : List Nat) : SeatsStats :=
  let total := alumno_ids.length
  let available := seats - (total : Int)
  { total_asistentes := total,
    seats_reserved := total,
    seats_available := available,
    occupancy_rate :=
      if seats > 0 then ((total : Rat) / (seats : Rat)) * 100 else 0,
    is_full := available ≤ 0 }

/-! Concrete records used to exercise the definitions. -/

/-- A confirmed session of teacher 1 on day 0 from 9:00 to 11:00. -/
def sesS : Sesion :=
  { id := 1, profesor_id := 1, date := 0, start_time := 9, duration := 2,
    end_time := 11, state := SesState.confirmed, seats := 15, alumno_ids := [] }

/-- A candidate session of teacher 1 on day 0 from 11:00 to 12:00 (touching). -/
def sesTouch : Sesion :=
  { id := 2, profesor_id := 1, date := 0, start_time := 11, duration := 1,
    end_time := 12, state := SesState.draft, seats := 15, alumno_ids := [] }

/-- A candidate session of teacher 1 on day 0 from 10:30 to 12:00 (overlapping). -/
def sesMid : Sesion :=
  { id := 3, profesor_id := 1, date := 0, start_time := 10.5, duration := 1.5,
    end_time := 12, state := SesState.draft, seats := 15, alumno_ids := [] }

/-- Creation payload of a confirmed session of teacher 7, day 0, 9:00-11:00
(the stored `end_time` is filled by the compute on create). -/
def sesA : Sesion :=
  { id := 1, profesor_id := 7, date := 0, start_time := 9, duration := 2,
    end_time := 0, state := SesState.confirmed, seats := 15, alumno_ids := [] }

/-- Creation payload of a draft session of teacher 7, day 0, 10:00-12:00,
overlapping `sesA`. -/
def sesB : Sesion :=
  { id := 2, profesor_id := 7, date := 0, start_time := 10, duration := 2,
    end_time := 0, state := SesState.draft, seats := 15, alumno_ids := [] }

/-- Creating `sesB` directly next to the active `sesA`: the overlap check
fires on create. -/
def c2_rejected : Option (List Sesion) :=
  (createSesion 0 [] sesA).bind fun db => createSesion 0 db sesB

/-- Create `sesA`, cancel it, create the overlapping `sesB` (accepted, since
cancelled sessions are excluded from the pool), then revive `sesA` with
`action_draft` — a state-only write. -/
def c2_trace : Option (List Sesion) :=
  (createSesion 0 [] sesA).bind fun db1 =>
  (Sesion.action_cancel 0 db1 1).bind fun db2 =>
  (createSesion 0 db2 sesB).bind fun db3 =>
  Sesion.action_draft 0 db3 1

/-- Creation payload of a draft session dated day 1 (the future, for
today = 0). -/
def sesFut : Sesion :=
  { id := 1, profesor_id := 2, date := 1, start_time := 9, duration := 2,
    end_time := 0, state := SesState.draft, seats := 15, alumno_ids := [] }

/-- Create the future-dated draft session, then mark it done. -/
def c7_trace : Option (List Sesion) :=
  (createSesion 0 [] sesFut).bind fun db => Sesion.action_done 0 db 1

/-- A draft matrícula for course price 500, 10% discount, 50 enrollment fee,
with its stored computed totals, a draft student and an empty invoice store. -/
def w500 : World :=
  { matricula :=
      { name := "MAT-001", state := MatState.draft,
        importe_curso := 500, descuento := 10, importe_matricula := 50,
        importe_total := compute_importe_total 500 10 50,
        importe_pagado := 0,
        importe_pendiente :=
          compute_importe_pendiente (compute_importe_total 500 10 50) 0,
        alumno_id := 1, curso_id := 2, clase_id := none, factura_id := none },
    alumno := { id := 1, state := AluState.draft, clase_ids := [] },
    facturas := [], curso_name := "Inglés B1", next_factura_id := 1 }

/-- The matrícula of `w500` in the confirmed state. -/
def wC : World :=
  { w500 with matricula := { w500.matricula with state := MatState.confirmed } }

/-- The matrícula of `w500` in the paid state. -/
def wPaid : World :=
  { w500 with matricula := { w500.matricula with state := MatState.paid } }

/-- A cancelled matrícula carrying payment traces: importe_pagado 500 and a
linked invoice 9. -/
def wRevert : World :=
  { w500 with matricula :=
      { w500.matricula with
        state := MatState.cancelled,
        importe_pagado := 500,
        importe_pendiente := 0,
        factura_id := some 9 } }

/-- Invoice amounts and final matrícula state after `confirm` then `pay` on
the draft `w500` (sentinel `([], draft)` when a transition fails). -/
def c3_final : List Rat × MatState :=
  match (Matricula.action_confirm w500).bind Matricula.action_pay with
  | Except.ok w => (w.facturas.map fun f => f.amount, w.matricula.state)
  | Except.error _ => ([], MatState.draft)

/-- The stored form of `sesA` after creation: `end_time` computed to 11. -/
def sesA11 : Sesion := { sesA with end_time := 11 }

/-- The stored form of `sesB` after creation: `end_time` computed to 12. -/
def sesB12 : Sesion := { sesB with end_time := 12 }

/-- The stored form of `sesFut` after creation: `end_time` computed to 11. -/
def sesFut11 : Sesion := { sesFut with end_time := 11 }

/-! Helper facts: evaluation of the constraint-trigger discipline on the
concrete written-field lists, and constructor disequalities that simp in
this toolchain does not reduce on its own. -/

theorem triggered_state_seats : triggered seatsWatched [SesField.state] = false := by decide

theorem triggered_state_date : triggered dateWatched [SesField.state] = false := by decide

theorem triggered_state_schedule : triggered scheduleWatched [SesField.state] = false := by decide

theorem triggered_all_seats : triggered seatsWatched allSesFields = true := by decide

theorem triggered_all_date : triggered dateWatched allSesFields = true := by decide

theorem triggered_all_schedule : triggered scheduleWatched allSesFields = true := by decide

theorem sesField_start_ne_state : SesField.start_time ≠ SesField.state := by decide

theorem sesField_duration_ne_state : SesField.duration ≠ SesField.state := by decide

theorem sesState_draft_ne_done : SesState.draft ≠ SesState.done := by decide

theorem sesState_confirmed_ne_done : SesState.confirmed ≠ SesState.done := by decide

theorem sesState_cancelled_ne_done : SesState.cancelled ≠ SesState.done := by decide

theorem sesState_draft_ne_cancelled : SesState.draft ≠ SesState.cancelled := by decide

theorem sesState_confirmed_ne_cancelled : SesState.confirmed ≠ SesState.cancelled := by decide

theorem sesState_done_ne_cancelled : SesState.done ≠ SesState.cancelled := by decide

theorem matState_draft_ne_paid : MatState.draft ≠ MatState.paid := by decide

theorem matState_confirmed_ne_paid : MatState.confirmed ≠ MatState.paid := by decide

theorem matState_cancelled_ne_paid : MatState.cancelled ≠ MatState.paid := by decide

theorem facState_paid_ne_pending : FacState.paid ≠ FacState.pending := by decide

/-! Theorems settling the claims. -/

/-- C1: for two distinct sessions of the same teacher on the same date, both
non-cancelled, the conflict detector reports a conflict iff
`S.start_time < C.end_time ∧ S.end_time > C.start_time`; the test is
symmetric in the two sessions; touching intervals 9-11 and 11-12 do not
conflict while 10:30-12 conflicts with 9-11. -/
theorem conflict_detector_halfopen_iff (s c : Sesion)
    (hid : c.id ≠ s.id) (hprof : c.profesor_id = s.profesor_id)
    (hdate : c.date = s.date) (hs : s.state ≠ SesState.cancelled)
    (hc : c.state ≠ SesState.cancelled) :
    (hasConflict [c] s = true ↔
      (s.start_time < c.end_time ∧ s.end_time > c.start_time)) ∧
    hasConflict [c] s = hasConflict [s] c ∧
    hasConflict [sesTouch] sesS = false ∧
    hasConflict [sesMid] sesS = true := by
  have e1 : hasConflict [c] s = true ↔
      (s.start_time < c.end_time ∧ s.end_time > c.start_time) := by
    simp [hasConflict, conflictPool, overlapsB, hid, hprof, hdate, hc]
  have e2 : hasConflict [s] c = true ↔
      (c.start_time < s.end_time ∧ c.end_time > s.start_time) := by
    simp [hasConflict, conflictPool, overlapsB, Ne.symm hid, hprof.symm,
      hdate.symm, hs]
  refine ⟨e1, ?_, ?_, ?_⟩
  · have h3 : (hasConflict [c] s = true) ↔ (hasConflict [s] c = true) := by
      rw [e1, e2]
      exact ⟨fun h => ⟨h.2, h.1⟩, fun h => ⟨h.2, h.1⟩⟩
    cases h4 : hasConflict [c] s <;> cases h5 : hasConflict [s] c <;>
      simp_all
  · norm_num [hasConflict, conflictPool, overlapsB, sesS, sesTouch,
      sesState_draft_ne_cancelled, sesState_confirmed_ne_cancelled]
  · norm_num [hasConflict, conflictPool, overlapsB, sesS, sesMid,
      sesState_draft_ne_cancelled, sesState_confirmed_ne_cancelled]

/-- C1 witness: the general theorem instantiated at the concrete sessions
`sesS` (9-11, confirmed) and `sesMid` (10:30-12, draft). -/
theorem conflict_detector_halfopen_iff_witness :
    (hasConflict [sesMid] sesS = true ↔
      (sesS.start_time < sesMid.end_time ∧ sesS.end_time > sesMid.start_time)) ∧
    hasConflict [sesMid] sesS = hasConflict [sesS] sesMid ∧
    hasConflict [sesTouch] sesS = false ∧
    hasConflict [sesMid] sesS = true :=
  conflict_detector_halfopen_iff sesS sesMid (by decide) rfl rfl
    (by decide) (by decide)

/-- C2 (code bug): creating the overlapping `sesB` next to the active `sesA`
is rejected, but after cancelling `sesA`, creating `sesB`, and reviving
`sesA` through `action_draft` — a write of `state` only, which no
`@api.constrains` decorator watches — every step succeeds and the store ends
with two overlapping non-cancelled sessions of teacher 7 on day 0: the
non-overlap invariant is broken by a successful write. -/
theorem c2_revival_breaks_schedule_invariant :
    c2_rejected = none ∧
    c2_trace = some [{ sesA11 with state := SesState.draft }, sesB12] ∧
    schedInvariant [{ sesA11 with state := SesState.draft }, sesB12] = false := by
  have h1 : createSesion 0 [] sesA = some [sesA11] := by
    norm_num [createSesion, recomputeEndTime, validateSesion,
      triggered_all_seats, triggered_all_date, triggered_all_schedule,
      check_seats, check_date, check_profesor_schedule, hasConflict,
      conflictPool, sesA, sesA11, sesState_confirmed_ne_done]
  have h1b : createSesion 0 [sesA11] sesB = none := by
    norm_num [createSesion, recomputeEndTime, validateSesion,
      triggered_all_seats, triggered_all_date, triggered_all_schedule,
      check_seats, check_date, check_profesor_schedule, hasConflict,
      conflictPool, overlapsB, sesA, sesA11, sesB,
      sesState_draft_ne_done, sesState_confirmed_ne_cancelled]
  have h2 : Sesion.action_cancel 0 [sesA11] 1 =
      some [{ sesA11 with state := SesState.cancelled }] := by
    norm_num [Sesion.action_cancel, writeSesion, validateSesion,
      triggered_state_seats, triggered_state_date, triggered_state_schedule,
      sesField_start_ne_state, sesField_duration_ne_state,
      List.find?, sesA, sesA11]
  have h3 : createSesion 0 [{ sesA11 with state := SesState.cancelled }] sesB =
      some [{ sesA11 with state := SesState.cancelled }, sesB12] := by
    norm_num [createSesion, recomputeEndTime, validateSesion,
      triggered_all_seats, triggered_all_date, triggered_all_schedule,
      check_seats, check_date, check_profesor_schedule, hasConflict,
      conflictPool, overlapsB, sesA, sesA11, sesB, sesB12,
      sesState_draft_ne_done]
  have h4 : Sesion.action_draft 0
      [{ sesA11 with state := SesState.cancelled }, sesB12] 1 =
      some [{ sesA11 with state := SesState.draft }, sesB12] := by
    norm_num [Sesion.action_draft, writeSesion, validateSesion,
      triggered_state_seats, triggered_state_date, triggered_state_schedule,
      sesField_start_ne_state, sesField_duration_ne_state,
      List.find?, sesA, sesA11, sesB, sesB12]
  refine ⟨?_, ?_, ?_⟩
  · simp only [c2_rejected, h1, Option.bind, h1b]
  · simp only [c2_trace, h1, Option.bind, h2, h3, h4]
  · norm_num [schedInvariant, pairOverlapViolation, sesA, sesA11, sesB,
      sesB12, sesState_draft_ne_cancelled]

/-- C7 (code bug): `_check_date` rejects creating a done session dated in
the future (day 1, today 0), but `action_done` writes only `state`, which
`@api.constrains('date')` does not watch, so it succeeds on the same
future-dated session and leaves a stored record that violates `check_date`. -/
theorem c7_action_done_skips_date_check :
    createSesion 0 [] { sesFut with state := SesState.done } = none ∧
    c7_trace = some [{ sesFut11 with state := SesState.done }] ∧
    check_date 0 { sesFut11 with state := SesState.done } = false := by
  have h1 : createSesion 0 [] sesFut = some [sesFut11] := by
    norm_num [createSesion, recomputeEndTime, validateSesion,
      triggered_all_seats, triggered_all_date, triggered_all_schedule,
      check_seats, check_date, check_profesor_schedule, hasConflict,
      conflictPool, sesFut, sesFut11, sesState_draft_ne_done]
  have h2 : Sesion.action_done 0 [sesFut11] 1 =
      some [{ sesFut11 with state := SesState.done }] := by
    norm_num [Sesion.action_done, writeSesion, validateSesion,
      triggered_state_seats, triggered_state_date, triggered_state_schedule,
      sesField_start_ne_state, sesField_duration_ne_state,
      List.find?, sesFut, sesFut11]
  refine ⟨?_, ?_, ?_⟩
  · norm_num [createSesion, recomputeEndTime, validateSesion,
      triggered_all_seats, triggered_all_date, triggered_all_schedule,
      check_seats, check_date, check_profesor_schedule, hasConflict,
      conflictPool, sesFut]
  · simp only [c7_trace, h1, Option.bind, h2]
  · norm_num [check_date, sesFut, sesFut11]

/-- C3: from Confirmed, `action_pay` succeeds: it sets importe_pagado to
importe_total (recomputing importe_pendiente), appends exactly one new
invoice owned by the matrícula's student with amount importe_total and
state Paid, links it as factura_id, promotes the student to Enrolled
exactly when the student was Draft, and sets the matrícula state to Paid;
for importe_curso 500, descuento 10, importe_matricula 50 the total is 500
and confirm-then-pay on `w500` yields exactly one invoice of amount 500
and final state Paid. -/
theorem action_pay_confirmed_effects (w : World)
    (h : w.matricula.state = MatState.confirmed) :
    Matricula.action_pay w = Except.ok
      { w with
        matricula :=
          { w.matricula with
            importe_pagado := w.matricula.importe_total,
            importe_pendiente :=
              compute_importe_pendiente w.matricula.importe_total
                w.matricula.importe_total,
            factura_id := some w.next_factura_id,
            state := MatState.paid },
        alumno :=
          if w.alumno.state = AluState.draft then
            { w.alumno with state := AluState.enrolled }
          else w.alumno,
        facturas := w.facturas ++
          [{ id := w.next_factura_id,
             alumno_id := w.matricula.alumno_id,
             curso_id := w.matricula.curso_id,
             concept := "Matrícula " ++ w.matricula.name ++ " - " ++ w.curso_name,
             amount := w.matricula.importe_total,
             state := FacState.paid }],
        next_factura_id := w.next_factura_id + 1 } ∧
    compute_importe_total 500 10 50 = 500 ∧
    c3_final = ([(500 : Rat)], MatState.paid) := by
  refine ⟨?_, by norm_num [compute_importe_total], ?_⟩
  · simp [Matricula.action_pay, h, compute_importe_pendiente]
  · norm_num [c3_final, Matricula.action_confirm, Matricula.action_pay,
      Except.bind, w500, compute_importe_total, compute_importe_pendiente]

/-- C3 witness: the theorem instantiated at the confirmed world `wC`. -/
theorem action_pay_confirmed_effects_witness :
    wC.matricula.state = MatState.confirmed ∧
    (Matricula.action_pay wC = Except.ok
      { wC with
        matricula :=
          { wC.matricula with
            importe_pagado := wC.matricula.importe_total,
            importe_pendiente :=
              compute_importe_pendiente wC.matricula.importe_total
                wC.matricula.importe_total,
            factura_id := some wC.next_factura_id,
            state := MatState.paid },
        alumno :=
          if wC.alumno.state = AluState.draft then
            { wC.alumno with state := AluState.enrolled }
          else wC.alumno,
        facturas := wC.facturas ++
          [{ id := wC.next_factura_id,
             alumno_id := wC.matricula.alumno_id,
             curso_id := wC.matricula.curso_id,
             concept := "Matrícula " ++ wC.matricula.name ++ " - " ++ wC.curso_name,
             amount := wC.matricula.importe_total,
             state := FacState.paid }],
        next_factura_id := wC.next_factura_id + 1 } ∧
    compute_importe_total 500 10 50 = 500 ∧
    c3_final = ([(500 : Rat)], MatState.paid)) :=
  ⟨rfl, action_pay_confirmed_effects wC rfl⟩

/-- C4: every illegal matrícula transition is rejected with the source's
error message and, the actions being pure, an error result leaves the
matrícula, the student and the invoice store exactly as they were:
`action_pay` outside Confirmed, `action_cancel` from Paid,
`action_confirm` outside Draft, and `action_draft` outside
Confirmed/Cancelled. -/
theorem illegal_transitions_rejected (w : World) :
    (w.matricula.state ≠ MatState.confirmed →
      Matricula.action_pay w = Except.error Matricula.payErr) ∧
    (w.matricula.state = MatState.paid →
      Matricula.action_cancel w = Except.error Matricula.cancelErr) ∧
    (w.matricula.state ≠ MatState.draft →
      Matricula.action_confirm w = Except.error Matricula.confirmErr) ∧
    (w.matricula.state ≠ MatState.confirmed ∧
        w.matricula.state ≠ MatState.cancelled →
      Matricula.action_draft w = Except.error Matricula.draftErr) := by
  refine ⟨fun h => ?_, fun h => ?_, fun h => ?_, fun h => ?_⟩
  · simp [Matricula.action_pay, h]
  · simp [Matricula.action_cancel, h]
  · simp [Matricula.action_confirm, h]
  · obtain ⟨h1, h2⟩ := h
    simp [Matricula.action_draft, h1, h2]

/-- C4 witness: all four rejections at the paid world `wPaid`: paying a
paid matrícula, cancelling it, confirming it and reverting it to draft all
fail with the corresponding error. -/
theorem illegal_transitions_rejected_witness :
    wPaid.matricula.state = MatState.paid ∧
    Matricula.action_pay wPaid = Except.error Matricula.payErr ∧
    Matricula.action_cancel wPaid = Except.error Matricula.cancelErr ∧
    Matricula.action_confirm wPaid = Except.error Matricula.confirmErr ∧
    Matricula.action_draft wPaid = Except.error Matricula.draftErr :=
  ⟨rfl,
   (illegal_transitions_rejected wPaid).1 (by decide),
   (illegal_transitions_rejected wPaid).2.1 rfl,
   (illegal_transitions_rejected wPaid).2.2.1 (by decide),
   (illegal_transitions_rejected wPaid).2.2.2 ⟨by decide, by decide⟩⟩

/-- C5: `_compute_importe_total` computes
importe_curso * (1 - descuento/100) + importe_matricula, recomputation is
deterministic and idempotent (same inputs, same value), and
`_compute_importe_pendiente` is importe_total - importe_pagado. -/
theorem importe_total_formula
    (importe_curso descuento importe_matricula importe_total importe_pagado : Rat) :
    compute_importe_total importe_curso descuento importe_matricula =
      importe_curso * (1 - descuento / 100) + importe_matricula ∧
    compute_importe_total importe_curso descuento importe_matricula =
      compute_importe_total importe_curso descuento importe_matricula ∧
    compute_importe_pendiente importe_total importe_pagado =
      importe_total - importe_pagado := by
  refine ⟨?_, rfl, rfl⟩
  unfold compute_importe_total
  ring

/-- C6: from Draft, Confirmed or Cancelled, `action_cancel` succeeds and
the entire new world is the old one with only the matrícula state set to
Cancelled: every other matrícula field (importe_pagado and factura_id
included), the student (and hence the class roster membership) and the
invoice store are untouched. -/
theorem action_cancel_frame (w : World)
    (h : w.matricula.state = MatState.draft ∨
      w.matricula.state = MatState.confirmed ∨
      w.matricula.state = MatState.cancelled) :
    Matricula.action_cancel w = Except.ok
      { w with matricula := { w.matricula with state := MatState.cancelled } } := by
  rcases h with h | h | h <;>
    simp [Matricula.action_cancel, h, matState_draft_ne_paid,
      matState_confirmed_ne_paid, matState_cancelled_ne_paid]

/-- C6 witness: cancelling the draft matrícula `w500`. -/
theorem action_cancel_frame_witness :
    w500.matricula.state = MatState.draft ∧
    Matricula.action_cancel w500 = Except.ok
      { w500 with matricula := { w500.matricula with state := MatState.cancelled } } :=
  ⟨rfl, action_cancel_frame w500 (Or.inl rfl)⟩

/-- C8: from Confirmed or Cancelled, `action_draft` succeeds and the new
world is the old one with only the matrícula state set to Draft: in
particular importe_pagado and the factura_id link are preserved, not
reset. -/
theorem action_draft_frame (w : World)
    (h : w.matricula.state = MatState.confirmed ∨
      w.matricula.state = MatState.cancelled) :
    Matricula.action_draft w = Except.ok
      { w with matricula := { w.matricula with state := MatState.draft } } := by
  rcases h with h | h <;> simp [Matricula.action_draft, h]

/-- C8 witness: reverting the cancelled matrícula `wRevert`, which carries
importe_pagado 500 and a linked invoice 9; both survive unchanged in the
stated result. -/
theorem action_draft_frame_witness :
    wRevert.matricula.state = MatState.cancelled ∧
    Matricula.action_draft wRevert = Except.ok
      { wRevert with matricula := { wRevert.matricula with state := MatState.draft } } :=
  ⟨rfl, action_draft_frame wRevert (Or.inr rfl)⟩

/-- C9: the seat aggregates are total functions with
seats_available = seats - |attendees| and is_full = (seats_available ≤ 0);
occupancy_rate is |attendees|/seats × 100 when seats > 0 and 0 when
seats = 0 (the division is guarded, so the division-by-zero branch is
unreachable). -/
theorem compute_seats_spec (seats : Int) (alumno_ids : List Nat) :
    (compute_seats seats alumno_ids).seats_available =
      seats - (alumno_ids.length : Int) ∧
    (compute_seats seats alumno_ids).is_full =
      decide ((compute_seats seats alumno_ids).seats_available ≤ 0) ∧
    (0 < seats → (compute_seats seats alumno_ids).occupancy_rate =
      (alumno_ids.length : Rat) / ((seats : Int) : Rat) * 100) ∧
    (seats = 0 → (compute_seats seats alumno_ids).occupancy_rate = 0) := by
  refine ⟨rfl, rfl, fun h => ?_, fun h => ?_⟩
  · simp [compute_seats, h]
  · subst h
    simp [compute_seats]

/-- C9 witness: 10 seats with 2 attendees gives occupancy 2/10 × 100; 0
seats gives occupancy 0. -/
theorem compute_seats_spec_witness :
    (0 : Int) < 10 ∧
    (compute_seats 10 [1, 2]).occupancy_rate =
      (([1, 2] : List Nat).length : Rat) / (((10 : Int) : Int) : Rat) * 100 ∧
    (compute_seats 0 [1]).occupancy_rate = 0 :=
  ⟨by norm_num, (compute_seats_spec 10 [1, 2]).2.2.1 (by norm_num),
   (compute_seats_spec 0 [1]).2.2.2 rfl⟩

/-- C10: a successful `action_pay` leaves the student's pending balance
unchanged, because the invoice it appends is born in state Paid while
`saldo_pendiente` sums only Pending invoices; the second conjunct records
that the appended invoice's state is Paid. -/
theorem action_pay_preserves_saldo (w : World)
    (h : w.matricula.state = MatState.confirmed) :
    (Matricula.action_pay w).map
        (fun w2 => saldo_pendiente w2.facturas w.matricula.alumno_id) =
      Except.ok (saldo_pendiente w.facturas w.matricula.alumno_id) ∧
    (Matricula.action_pay w).map
        (fun w2 => w2.facturas.map fun f => f.state) =
      Except.ok ((w.facturas.map fun f => f.state) ++ [FacState.paid]) := by
  constructor
  · simp [Matricula.action_pay, h, Except.map, saldo_pendiente,
      List.filter_append, facState_paid_ne_pending]
  · simp [Matricula.action_pay, h, Except.map]

/-- C10 witness: the theorem instantiated at the confirmed world `wC`. -/
theorem action_pay_preserves_saldo_witness :
    wC.matricula.state = MatState.confirmed ∧
    ((Matricula.action_pay wC).map
        (fun w2 => saldo_pendiente w2.facturas wC.matricula.alumno_id) =
      Except.ok (saldo_pendiente wC.facturas wC.matricula.alumno_id)) ∧
    ((Matricula.action_pay wC).map
        (fun w2 => w2.facturas.map fun f => f.state) =
      Except.ok ((wC.facturas.map fun f => f.state) ++ [FacState.paid])) :=
  ⟨rfl, (action_pay_preserves_saldo wC rfl).1,
   (action_pay_preserves_saldo wC rfl).2⟩

end Academia
